import Mathlib

/-!
Verification of the football-simulator match engine core:
the steering behaviours (`SteeringBehavior::calculate`) and the forward
`HeadingUpPlay` state (`ForwardHeadingUpPlayState`).

`f32` arithmetic is modelled over the real numbers; `Vector3<f32>` becomes
a record of three reals.  Helper functions of the repository that are
called from the embedded code but whose own source is not available
(`normalize`, `random_in_unit_circle`, `heading`, the player-collection
accessors, `is_under_pressure`) are modelled from the specification and
marked as such in their doc comments.
-/

open Classical

/-- A 3-component vector over the reals, modelling `nalgebra::Vector3<f32>`. -/
structure Vec3 where
  x : ℝ
  y : ℝ
  z : ℝ

namespace Vec3

theorem ext_iff3 {a b : Vec3} : a = b ↔ a.x = b.x ∧ a.y = b.y ∧ a.z = b.z := by
  constructor
  · intro h; subst h; exact ⟨rfl, rfl, rfl⟩
  · intro h
    cases a; cases b
    simp only [mk.injEq]
    exact ⟨h.1, h.2.1, h.2.2⟩

instance : Add Vec3 := ⟨fun a b => ⟨a.x + b.x, a.y + b.y, a.z + b.z⟩⟩

instance : Sub Vec3 := ⟨fun a b => ⟨a.x - b.x, a.y - b.y, a.z - b.z⟩⟩

instance : Neg Vec3 := ⟨fun a => ⟨-a.x, -a.y, -a.z⟩⟩

instance : SMul ℝ Vec3 := ⟨fun c v => ⟨c * v.x, c * v.y, c * v.z⟩⟩

@[simp] theorem add_x (a b : Vec3) : (a + b).x = a.x + b.x := rfl
@[simp] theorem add_y (a b : Vec3) : (a + b).y = a.y + b.y := rfl
@[simp] theorem add_z (a b : Vec3) : (a + b).z = a.z + b.z := rfl
@[simp] theorem sub_x (a b : Vec3) : (a - b).x = a.x - b.x := rfl
@[simp] theorem sub_y (a b : Vec3) : (a - b).y = a.y - b.y := rfl
@[simp] theorem sub_z (a b : Vec3) : (a - b).z = a.z - b.z := rfl
@[simp] theorem neg_x (a : Vec3) : (-a).x = -a.x := rfl
@[simp] theorem neg_y (a : Vec3) : (-a).y = -a.y := rfl
@[simp] theorem neg_z (a : Vec3) : (-a).z = -a.z := rfl
@[simp] theorem smul_x (c : ℝ) (v : Vec3) : (c • v).x = c * v.x := rfl
@[simp] theorem smul_y (c : ℝ) (v : Vec3) : (c • v).y = c * v.y := rfl
@[simp] theorem smul_z (c : ℝ) (v : Vec3) : (c • v).z = c * v.z := rfl

/-- Euclidean length of a vector (`Vector3::length` / `norm`). -/
noncomputable def length (v : Vec3) : ℝ := Real.sqrt (v.x ^ 2 + v.y ^ 2 + v.z ^ 2)

/-- `a.distance_to(&b)`: Euclidean distance between two points. -/
noncomputable def distanceTo (a b : Vec3) : ℝ := length (b - a)

/-- Dot product of two vectors. -/
def dot (a b : Vec3) : ℝ := a.x * b.x + a.y * b.y + a.z * b.z

/-- `Vector3::add_scalar`: adds a scalar to every component. -/
def addScalar (v : Vec3) (c : ℝ) : Vec3 := ⟨v.x + c, v.y + c, v.z + c⟩

/-- Modelled from the spec: `normalize` "fails safely to zero-vector on
zero-length input; must not divide by zero" — the vector-utilities source is
not part of the provided files.  On nonzero input it divides by the length. -/
noncomputable def normalize (v : Vec3) : Vec3 :=
  if length v = 0 then ⟨0, 0, 0⟩ else (1 / length v) • v

theorem length_nonneg (v : Vec3) : 0 ≤ length v := Real.sqrt_nonneg _

theorem length_smul (c : ℝ) (v : Vec3) : length (c • v) = |c| * length v := by
  unfold length
  have h : (c • v).x ^ 2 + (c • v).y ^ 2 + (c • v).z ^ 2
      = c ^ 2 * (v.x ^ 2 + v.y ^ 2 + v.z ^ 2) := by
    simp only [smul_x, smul_y, smul_z]; ring
  rw [h, Real.sqrt_mul (sq_nonneg c), Real.sqrt_sq_eq_abs]

theorem length_neg (v : Vec3) : length (-v) = length v := by
  unfold length
  have h : (-v).x ^ 2 + (-v).y ^ 2 + (-v).z ^ 2 = v.x ^ 2 + v.y ^ 2 + v.z ^ 2 := by
    simp only [neg_x, neg_y, neg_z]; ring
  rw [h]

theorem length_of_ne_zero_pos {v : Vec3} (h : length v ≠ 0) : 0 < length v :=
  lt_of_le_of_ne (length_nonneg v) (Ne.symm h)

theorem length_normalize_of_ne_zero {v : Vec3} (h : length v ≠ 0) :
    length (normalize v) = 1 := by
  have hpos : 0 < length v := length_of_ne_zero_pos h
  unfold normalize
  rw [if_neg h, length_smul]
  rw [abs_of_pos (by positivity : (0:ℝ) < 1 / length v)]
  field_simp

theorem length_normalize_le_one (v : Vec3) : length (normalize v) ≤ 1 := by
  by_cases h : length v = 0
  · unfold normalize
    rw [if_pos h]
    unfold length
    norm_num
  · exact le_of_eq (length_normalize_of_ne_zero h)

theorem normalize_neg (v : Vec3) : normalize (-v) = - normalize v := by
  unfold normalize
  rw [length_neg]
  by_cases h : length v = 0
  · rw [if_pos h, if_pos h]
    rw [ext_iff3]
    norm_num
  · rw [if_neg h, if_neg h]
    rw [ext_iff3]
    simp only [smul_x, smul_y, smul_z, neg_x, neg_y, neg_z]
    refine ⟨by ring, by ring, by ring⟩

theorem length_mk_x (a : ℝ) : length ⟨a, 0, 0⟩ = |a| := by
  unfold length
  norm_num [Real.sqrt_sq_eq_abs]

theorem dist_mk_x (a b : ℝ) : distanceTo ⟨a, 0, 0⟩ ⟨b, 0, 0⟩ = |b - a| := by
  unfold distanceTo
  have h : (⟨b, 0, 0⟩ - ⟨a, 0, 0⟩ : Vec3) = ⟨b - a, 0, 0⟩ := by
    rw [ext_iff3]; norm_num
  rw [h, length_mk_x]

theorem normalize_mk_x_pos {a : ℝ} (h : 0 < a) : normalize ⟨a, 0, 0⟩ = ⟨1, 0, 0⟩ := by
  unfold normalize
  rw [length_mk_x, abs_of_pos h, if_neg (ne_of_gt h)]
  rw [ext_iff3]
  field_simp

theorem sub_add_cancel3 (a b : Vec3) : a - b + b = a := by
  rw [ext_iff3]
  simp only [add_x, add_y, add_z, sub_x, sub_y, sub_z]
  refine ⟨by ring, by ring, by ring⟩

end Vec3

/-- Player side within the match (`PlayerSide`). -/
inductive PlayerSide where
  | left
  | right
deriving DecidableEq

/-- Physical skill attributes used by the embedded code. -/
structure PhysicalSkills where
  acceleration : ℝ

/-- Skill attributes of a player; `max_speed` is the value returned by
`skills.max_speed()` (its source is not part of the provided files; the spec
lists "max speed" among the skill attributes). -/
structure PlayerSkills where
  maxSpeed : ℝ
  physical : PhysicalSkills

/-- A match player (`MatchPlayer`): identity, team id, side, position,
velocity, possession flag and skills, per the spec's data model. -/
structure MatchPlayer where
  id : Nat
  teamId : Nat
  side : Option PlayerSide
  position : Vec3
  velocity : Vec3
  hasBall : Bool
  skills : PlayerSkills

/-- Modelled from the spec: `heading` "derives a 2D facing angle from
velocity" — the vector-utilities source is not part of the provided files.
Modelled as the planar argument (atan2) of the velocity's x/y components. -/
noncomputable def MatchPlayer.heading (p : MatchPlayer) : ℝ :=
  Complex.arg ⟨p.velocity.x, p.velocity.y⟩

/-- Modelled from the spec: `random_in_unit_circle` is a "bounded, seeded
pseudo-random" draw whose source is not part of the provided files; it is
modelled as a pure function of an explicit seed, landing on the unit circle
in the plane. -/
noncomputable def randomInUnitCircle (seed : Nat) : Vec3 :=
  ⟨Real.cos seed, Real.sin seed, 0⟩

/-- The steering behaviour variants (`SteeringBehavior`). -/
inductive SteeringBehavior where
  | seek (target : Vec3)
  | arrive (target : Vec3) (slowingDistance : ℝ)
  | pursuit (target : MatchPlayer)
  | evade (target : MatchPlayer)
  | wander (target : Vec3) (radius jitter distance angle : ℝ)
  | flee (target : Vec3)

/-- The output of a steering computation (`SteeringOutput`). -/
structure SteeringOutput where
  velocity : Vec3
  rotationAngle : ℝ

/-- `SteeringBehavior::calculate`.  The `seed` argument makes explicit the
pseudo-random seed consumed by the Wander branch's `random_in_unit_circle`
draw; all other branches ignore it. -/
noncomputable def SteeringBehavior.calculate (b : SteeringBehavior)
    (player : MatchPlayer) (seed : Nat) : SteeringOutput :=
  match b with
  | .seek target =>
      let desiredVelocity := Vec3.normalize (target - player.position)
      let steering := desiredVelocity - player.velocity
      ⟨steering, 0⟩
  | .arrive target slowingDistance =>
      let distance := Vec3.length (target - player.position)
      if distance < slowingDistance then
        let desiredSpeed := distance / slowingDistance * player.skills.maxSpeed
        let desiredVelocity := desiredSpeed • Vec3.normalize (target - player.position)
        let steering := desiredVelocity - player.velocity
        ⟨steering, 0⟩
      else
        let desiredVelocity :=
          player.skills.maxSpeed • Vec3.normalize (target - player.position)
        let steering := desiredVelocity - player.velocity
        ⟨steering, 0⟩
  | .pursuit target =>
      let distance := Vec3.length (target.position - player.position)
      let prediction := distance / player.skills.maxSpeed
      let targetPosition := target.position + prediction • target.velocity
      let desiredVelocity :=
        player.skills.maxSpeed • Vec3.normalize (targetPosition - player.position)
      let steering := desiredVelocity - player.velocity
      ⟨steering, 0⟩
  | .evade target =>
      let distance := Vec3.length (target.position - player.position)
      let prediction := distance / player.skills.maxSpeed
      let targetPosition := target.position + prediction • target.velocity
      let desiredVelocity :=
        player.skills.maxSpeed • Vec3.normalize (player.position - targetPosition)
      let steering := desiredVelocity - player.velocity
      ⟨steering, 0⟩
  | .wander target radius jitter distance _angle =>
      let randVec := jitter • randomInUnitCircle seed
      let target1 := randVec + target
      let targetOffset := target1 - player.position
      let targetOffset1 := distance • Vec3.normalize targetOffset
      let targetOffset2 := targetOffset1.addScalar (player.heading * radius)
      let steering := targetOffset2 - player.velocity
      ⟨steering, 0⟩
  | .flee target =>
      let desiredVelocity :=
        player.skills.maxSpeed • Vec3.normalize (player.position - target)
      let steering := desiredVelocity - player.velocity
      ⟨steering, 0⟩

/-- The forward states referenced by the embedded code (`ForwardState`). -/
inductive ForwardState where
  | running
  | passing
  | dribbling
  | headingUpPlay
deriving DecidableEq

/-- Player events emitted by state logic (`PlayerEvent`); only `RequestPass`
is used by the embedded code. -/
inductive PlayerEvent where
  | requestPass (playerId : Nat)
deriving DecidableEq

/-- `StateChangeResult`: optional new velocity, optional next-state
transition, emitted events (spec data model). -/
structure StateChangeResult where
  velocity : Option Vec3
  state : Option ForwardState
  events : List PlayerEvent

/-- `StateChangeResult::new()`: the empty result. -/
def StateChangeResult.new : StateChangeResult := ⟨none, none, []⟩

/-- Modelled from the spec: `StateChangeResult::with_forward_state` (source
not among the provided files) builds a result carrying only the given
next-state transition — no velocity, no events. -/
def StateChangeResult.withForwardState (s : ForwardState) : StateChangeResult :=
  ⟨none, some s, []⟩

/-- Modelled from the spec: the snapshot's player store.  `list` backs the
team/opponent enumerations; `index` is the "snapshot's player index" used by
id lookups, which per the spec's error taxonomy may be stale with respect to
the enumerations (a player removed between snapshot construction and
evaluation). -/
structure PlayerCollection where
  list : List MatchPlayer
  index : List MatchPlayer

/-- `players.get(id)`: id lookup in the snapshot's player index. -/
def PlayerCollection.get (c : PlayerCollection) (pid : Nat) : Option MatchPlayer :=
  c.index.find? (fun p => p.id == pid)

/-- `players.get_by_team(team_id)`: all stored players with the given team id. -/
def PlayerCollection.getByTeam (c : PlayerCollection) (tid : Nat) : List MatchPlayer :=
  c.list.filter (fun p => p.teamId == tid)

/-- Goal positions for both sides (`ctx.context.goal_positions`). -/
structure GoalPositions where
  left : Vec3
  right : Vec3

/-- The per-tick processing context (`StateProcessingContext`) restricted to
the data read by the embedded code.  `pressureDistance` is the spec's
"pressure-distance threshold" (value unspecified in the provided sources);
`directionToOpponentGoal` models `ctx.ball().direction_to_opponent_goal()`. -/
structure StateProcessingContext where
  player : MatchPlayer
  players : PlayerCollection
  ballPosition : Vec3
  goalPositions : GoalPositions
  fieldWidth : ℝ
  pressureDistance : ℝ
  directionToOpponentGoal : Vec3

/-- `ctx.team().opponents()`: players of the other team, modelled from the
spec's "team/side membership" as those stored players whose team id differs
from the acting player's. -/
def StateProcessingContext.opponents (ctx : StateProcessingContext) : List MatchPlayer :=
  ctx.players.list.filter (fun p => !(p.teamId == ctx.player.teamId))

/-- The acting player's teammates: `ctx.context.players.get_by_team(ctx.player.team_id)`. -/
def StateProcessingContext.teammates (ctx : StateProcessingContext) : List MatchPlayer :=
  ctx.players.getByTeam ctx.player.teamId

/-- Modelled from the spec: `player_ops.is_under_pressure()` (source not
among the provided files) — "an opponent within the pressure-distance
threshold". -/
def StateProcessingContext.isUnderPressure (ctx : StateProcessingContext) : Prop :=
  ∃ o ∈ ctx.opponents, Vec3.distanceTo ctx.player.position o.position < ctx.pressureDistance

namespace ForwardHeadingUpPlayState

/-- `has_support`: some teammate within the fixed support distance 10.0. -/
def hasSupport (ctx : StateProcessingContext) : Prop :=
  ∃ t ∈ ctx.teammates, Vec3.distanceTo ctx.player.position t.position < 10

/-- `is_open_for_pass`: the teammate is within max pass distance 20.0 and no
opponent is within clearance 5.0 of the teammate. -/
def isOpenForPass (ctx : StateProcessingContext) (teammate : MatchPlayer) : Prop :=
  ¬ (Vec3.distanceTo ctx.player.position teammate.position > 20) ∧
    ∀ o ∈ ctx.opponents, Vec3.distanceTo o.position teammate.position > 5

/-- `in_passing_lane`: dot product of the normalized player-to-ball and
player-to-teammate directions exceeds 0.8. -/
def inPassingLane (ctx : StateProcessingContext) (teammate : MatchPlayer) : Prop :=
  Vec3.dot (Vec3.normalize (ctx.ballPosition - ctx.player.position))
      (Vec3.normalize (teammate.position - ctx.player.position)) > 0.8

/-- The opponent goal used by `scoring_chance`, per the teammate's side. -/
def goalForScoring (ctx : StateProcessingContext) (teammate : MatchPlayer) : Vec3 :=
  match teammate.side with
  | some .left => ctx.goalPositions.right
  | some .right => ctx.goalPositions.left
  | none => ⟨0, 0, 0⟩

/-- `scoring_chance`: `1 - distance_to_goal / field_width`. -/
noncomputable def scoringChance (ctx : StateProcessingContext)
    (teammate : MatchPlayer) : ℝ :=
  1 - Vec3.distanceTo teammate.position (goalForScoring ctx teammate) / ctx.fieldWidth

/-- The comparator passed to `max_by`: `partial_cmp` on scoring chances with
`unwrap_or(Equal)`; over the real model the comparison is total. -/
noncomputable def compareChance (ctx : StateProcessingContext)
    (a b : MatchPlayer) : Ordering :=
  if scoringChance ctx a < scoringChance ctx b then .lt
  else if scoringChance ctx b < scoringChance ctx a then .gt
  else .eq

/-- Rust `Iterator::max_by`: none on empty, otherwise folds with
`cmp::max_by`, which keeps the second element on ties (last maximum wins). -/
def maxByLast {α : Type} (cmp : α → α → Ordering) : List α → Option α
  | [] => none
  | x :: xs => some (xs.foldl (fun acc y => if cmp acc y = .gt then acc else y) x)

/-- `find_best_pass_option`: filter teammates that are open and in the
passing lane, take the one with the highest scoring chance, return its id. -/
noncomputable def findBestPassOption (ctx : StateProcessingContext) : Option Nat :=
  ((ctx.teammates.filter
      (fun t => decide (isOpenForPass ctx t ∧ inPassingLane ctx t)))
    |> maxByLast (compareChance ctx)).map (fun p => p.id)

/-- `ForwardHeadingUpPlayState::try_fast`.  Note: in the pass branch the
source adds the `RequestPass` event to a local `result` and then returns a
fresh `with_forward_state(Running)` value, so the returned result carries no
events; the `?` on the index lookup turns a miss into `None`. -/
noncomputable def tryFast (ctx : StateProcessingContext) : Option StateChangeResult :=
  if ctx.player.hasBall = false then
    some (StateChangeResult.withForwardState .running)
  else if ctx.isUnderPressure then
    some (StateChangeResult.withForwardState .passing)
  else if ¬ hasSupport ctx then
    some (StateChangeResult.withForwardState .dribbling)
  else
    match findBestPassOption ctx with
    | some teammateId =>
        match ctx.players.get teammateId with
        | none => none
        | some _ => some (StateChangeResult.withForwardState .running)
    | none =>
        let goalPosition := ctx.directionToOpponentGoal
        let direction := Vec3.normalize (goalPosition - ctx.player.position)
        some ⟨some ((ctx.player.skills.physical.acceleration * 0.5) • direction),
              none, []⟩

/-- `ForwardHeadingUpPlayState::process_slow`: always `None`. -/
def processSlow (_ctx : StateProcessingContext) : Option StateChangeResult :=
  none

/-- `ForwardHeadingUpPlayState::velocity`: always `Some` zero vector. -/
def stateVelocity (_ctx : StateProcessingContext) : Option Vec3 :=
  some ⟨0, 0, 0⟩

end ForwardHeadingUpPlayState

theorem calculate_seek (t : Vec3) (p : MatchPlayer) (s : Nat) :
    (SteeringBehavior.seek t).calculate p s
      = ⟨Vec3.normalize (t - p.position) - p.velocity, 0⟩ := rfl

theorem calculate_flee (t : Vec3) (p : MatchPlayer) (s : Nat) :
    (SteeringBehavior.flee t).calculate p s
      = ⟨p.skills.maxSpeed • Vec3.normalize (p.position - t) - p.velocity, 0⟩ := rfl

theorem calculate_arrive (t : Vec3) (sd : ℝ) (p : MatchPlayer) (s : Nat) :
    (SteeringBehavior.arrive t sd).calculate p s
      = if Vec3.length (t - p.position) < sd then
          ⟨(Vec3.length (t - p.position) / sd * p.skills.maxSpeed)
              • Vec3.normalize (t - p.position) - p.velocity, 0⟩
        else
          ⟨p.skills.maxSpeed • Vec3.normalize (t - p.position) - p.velocity, 0⟩ := rfl

/-- Claim C10: for `ForwardHeadingUpPlayState`, `process_slow` always
returns `None` and `velocity` always returns `Some` zero vector; the
state's behaviour is fully decided by the fast path. -/
theorem heading_up_play_slow_path_inert (ctx : StateProcessingContext) :
    ForwardHeadingUpPlayState.processSlow ctx = none ∧
      ForwardHeadingUpPlayState.stateVelocity ctx = some ⟨0, 0, 0⟩ :=
  ⟨rfl, rfl⟩

/-- Claim C5: normalizing a zero-length vector returns the zero vector
(no division by zero), and Seek with target equal to the player's position
yields the well-defined output `0 - velocity`. -/
theorem normalize_zero_safe_seek_defined (p : MatchPlayer) :
    Vec3.normalize ⟨0, 0, 0⟩ = ⟨0, 0, 0⟩ ∧
      ((SteeringBehavior.seek p.position).calculate p 0).velocity
        = (⟨0, 0, 0⟩ : Vec3) - p.velocity := by
  have hz : Vec3.normalize ⟨0, 0, 0⟩ = ⟨0, 0, 0⟩ := by
    unfold Vec3.normalize
    rw [if_pos]
    rw [Vec3.length_mk_x]
    norm_num
  refine ⟨hz, ?_⟩
  rw [calculate_seek]
  have hself : p.position - p.position = (⟨0, 0, 0⟩ : Vec3) := by
    rw [Vec3.ext_iff3]
    simp
  show Vec3.normalize (p.position - p.position) - p.velocity = (⟨0, 0, 0⟩ : Vec3) - p.velocity
  rw [hself, hz]

/-- Claim C4: `SteeringBehavior::calculate` is deterministic — identical
behaviour parameters, player state and pseudo-random seed yield identical
`SteeringOutput` values; in particular the Wander draw depends only on the
seed. -/
theorem calculate_deterministic (b b' : SteeringBehavior) (p p' : MatchPlayer)
    (s s' : Nat) (hb : b = b') (hp : p = p') (hs : s = s') :
    b.calculate p s = b'.calculate p' s' := by
  subst hb
  subst hp
  subst hs
  rfl

/-- Claim C2: with the ball and under pressure, `try_fast` transitions to
Passing, regardless of support or pass availability — the pressure check is
decided before the support and pass checks. -/
theorem heading_up_play_pressure_to_passing (ctx : StateProcessingContext)
    (hball : ctx.player.hasBall = true) (hp : ctx.isUnderPressure) :
    ForwardHeadingUpPlayState.tryFast ctx
      = some (StateChangeResult.withForwardState .passing) := by
  unfold ForwardHeadingUpPlayState.tryFast
  rw [if_neg (by simp [hball]), if_pos hp]

/-- Claim C8: with the ball, not under pressure and no teammate within the
support distance, `try_fast` transitions to Dribbling. -/
theorem heading_up_play_no_support_to_dribbling (ctx : StateProcessingContext)
    (hball : ctx.player.hasBall = true) (hnp : ¬ ctx.isUnderPressure)
    (hns : ¬ ForwardHeadingUpPlayState.hasSupport ctx) :
    ForwardHeadingUpPlayState.tryFast ctx
      = some (StateChangeResult.withForwardState .dribbling) := by
  unfold ForwardHeadingUpPlayState.tryFast
  rw [if_neg (by simp [hball]), if_neg hnp, if_pos hns]

/-- "Opposite sign up to positive scale": `v` is a negative multiple of `u`. -/
def Antiparallel (u v : Vec3) : Prop := ∃ c : ℝ, 0 < c ∧ v = (-c) • u

/-- Common skill fixture for concrete evaluations: max speed 2, acceleration 1. -/
def skW : PlayerSkills := ⟨2, ⟨1⟩⟩

/-- Concrete ball-holding player at the origin with zero velocity. -/
def pW : MatchPlayer := ⟨1, 1, some .left, ⟨0, 0, 0⟩, ⟨0, 0, 0⟩, true, skW⟩

/-- Concrete player with nonzero current velocity `(5,0,0)`. -/
def pC6 : MatchPlayer := ⟨1, 1, some .left, ⟨0, 0, 0⟩, ⟨5, 0, 0⟩, true, skW⟩

/-- Claim C6 counterexample: for the player `pC6` (current velocity
`(5,0,0)`) and target `(1,0,0)`, the Seek output `(-4,0,0)` and the Flee
output `(-7,0,0)` point the same way — they are not antiparallel, because
the current-velocity subtraction shifts both outputs. -/
theorem seek_flee_not_antiparallel_cex :
    ¬ Antiparallel ((SteeringBehavior.seek ⟨1, 0, 0⟩).calculate pC6 0).velocity
        ((SteeringBehavior.flee ⟨1, 0, 0⟩).calculate pC6 0).velocity := by
  have h1 : ((SteeringBehavior.seek ⟨1, 0, 0⟩).calculate pC6 0).velocity
      = ⟨-4, 0, 0⟩ := by
    rw [calculate_seek]
    show Vec3.normalize ((⟨1, 0, 0⟩ : Vec3) - pC6.position) - pC6.velocity = _
    have e : ((⟨1, 0, 0⟩ : Vec3) - pC6.position) = ⟨1, 0, 0⟩ := by
      rw [Vec3.ext_iff3]; simp [pC6]
    rw [e, Vec3.normalize_mk_x_pos one_pos, Vec3.ext_iff3]
    simp [pC6]
    norm_num
  have h2 : ((SteeringBehavior.flee ⟨1, 0, 0⟩).calculate pC6 0).velocity
      = ⟨-7, 0, 0⟩ := by
    rw [calculate_flee]
    show pC6.skills.maxSpeed • Vec3.normalize (pC6.position - ⟨1, 0, 0⟩)
        - pC6.velocity = _
    have e : (pC6.position - (⟨1, 0, 0⟩ : Vec3)) = -(⟨1, 0, 0⟩ : Vec3) := by
      rw [Vec3.ext_iff3]; simp [pC6]
    rw [e, Vec3.normalize_neg, Vec3.normalize_mk_x_pos one_pos, Vec3.ext_iff3]
    simp [pC6, skW]
    norm_num
  rintro ⟨c, hc, heq⟩
  rw [h1, h2, Vec3.ext_iff3] at heq
  simp only [Vec3.smul_x] at heq
  have hx := heq.1
  linarith

/-- Claim C6 amended: for a player whose current velocity is zero and whose
max speed is positive, the Seek and Flee outputs for the same target are
antiparallel (Flee is the `-max_speed` multiple of Seek). -/
theorem seek_flee_antiparallel_zero_velocity (p : MatchPlayer) (t : Vec3)
    (hv : p.velocity = ⟨0, 0, 0⟩) (hm : 0 < p.skills.maxSpeed) :
    Antiparallel ((SteeringBehavior.seek t).calculate p 0).velocity
      ((SteeringBehavior.flee t).calculate p 0).velocity := by
  refine ⟨p.skills.maxSpeed, hm, ?_⟩
  rw [calculate_seek, calculate_flee]
  show p.skills.maxSpeed • Vec3.normalize (p.position - t) - p.velocity
      = (-p.skills.maxSpeed) • (Vec3.normalize (t - p.position) - p.velocity)
  have e : p.position - t = -(t - p.position) := by
    rw [Vec3.ext_iff3]
    simp only [Vec3.sub_x, Vec3.sub_y, Vec3.sub_z, Vec3.neg_x, Vec3.neg_y, Vec3.neg_z]
    refine ⟨by ring, by ring, by ring⟩
  rw [e, Vec3.normalize_neg, hv, Vec3.ext_iff3]
  simp only [Vec3.sub_x, Vec3.sub_y, Vec3.sub_z, Vec3.smul_x, Vec3.smul_y,
    Vec3.smul_z, Vec3.neg_x, Vec3.neg_y, Vec3.neg_z]
  refine ⟨by ring, by ring, by ring⟩

/-- Claim C6 amended, witness at the concrete player `pW` and target `(1,0,0)`. -/
theorem seek_flee_antiparallel_witness :
    Antiparallel ((SteeringBehavior.seek ⟨1, 0, 0⟩).calculate pW 0).velocity
      ((SteeringBehavior.flee ⟨1, 0, 0⟩).calculate pW 0).velocity :=
  seek_flee_antiparallel_zero_velocity pW ⟨1, 0, 0⟩ rfl
    (by show (0:ℝ) < 2; norm_num)

/-- The desired speed of the Arrive behaviour: the magnitude of the desired
velocity, reconstructed from the steering output before the
current-velocity subtraction. -/
noncomputable def arriveDesiredSpeed (t : Vec3) (sd : ℝ) (p : MatchPlayer) : ℝ :=
  Vec3.length (((SteeringBehavior.arrive t sd).calculate p 0).velocity + p.velocity)

theorem arriveDesiredSpeed_eq (t : Vec3) (sd : ℝ) (p : MatchPlayer) :
    arriveDesiredSpeed t sd p
      = if Vec3.length (t - p.position) < sd then
          |Vec3.length (t - p.position) / sd * p.skills.maxSpeed|
            * Vec3.length (Vec3.normalize (t - p.position))
        else
          |p.skills.maxSpeed| * Vec3.length (Vec3.normalize (t - p.position)) := by
  unfold arriveDesiredSpeed
  rw [calculate_arrive]
  by_cases h : Vec3.length (t - p.position) < sd
  · rw [if_pos h, if_pos h]
    show Vec3.length ((Vec3.length (t - p.position) / sd * p.skills.maxSpeed)
        • Vec3.normalize (t - p.position) - p.velocity + p.velocity) = _
    rw [Vec3.sub_add_cancel3, Vec3.length_smul]
  · rw [if_neg h, if_neg h]
    show Vec3.length (p.skills.maxSpeed
        • Vec3.normalize (t - p.position) - p.velocity + p.velocity) = _
    rw [Vec3.sub_add_cancel3, Vec3.length_smul]

/-- Claim C3: with positive slowing distance and positive max speed, the
Arrive desired speed never exceeds the player's max speed, and it is
strictly smaller at the strictly smaller of two distances that are both
below the slowing distance. -/
theorem arrive_speed_bounded_and_monotone (p : MatchPlayer) (t t1 t2 : Vec3)
    (sd : ℝ) (hsd : 0 < sd) (hm : 0 < p.skills.maxSpeed)
    (h12 : Vec3.distanceTo p.position t1 < Vec3.distanceTo p.position t2)
    (h2s : Vec3.distanceTo p.position t2 < sd) :
    arriveDesiredSpeed t sd p ≤ p.skills.maxSpeed ∧
      arriveDesiredSpeed t1 sd p < arriveDesiredSpeed t2 sd p := by
  have hdist : ∀ u : Vec3, Vec3.distanceTo p.position u = Vec3.length (u - p.position) :=
    fun _ => rfl
  rw [hdist, hdist] at h12
  rw [hdist] at h2s
  constructor
  · rw [arriveDesiredSpeed_eq]
    by_cases h : Vec3.length (t - p.position) < sd
    · rw [if_pos h]
      have hd0 : 0 ≤ Vec3.length (t - p.position) := Vec3.length_nonneg _
      have hL0 : 0 ≤ Vec3.length (Vec3.normalize (t - p.position)) :=
        Vec3.length_nonneg _
      have hL1 : Vec3.length (Vec3.normalize (t - p.position)) ≤ 1 :=
        Vec3.length_normalize_le_one _
      have hX0 : 0 ≤ Vec3.length (t - p.position) / sd * p.skills.maxSpeed := by
        positivity
      rw [abs_of_nonneg hX0]
      have hq : Vec3.length (t - p.position) / sd ≤ 1 := by
        rw [div_le_one hsd]
        linarith
      nlinarith
    · rw [if_neg h]
      have hL0 : 0 ≤ Vec3.length (Vec3.normalize (t - p.position)) :=
        Vec3.length_nonneg _
      have hL1 : Vec3.length (Vec3.normalize (t - p.position)) ≤ 1 :=
        Vec3.length_normalize_le_one _
      rw [abs_of_pos hm]
      nlinarith
  · rw [arriveDesiredSpeed_eq, arriveDesiredSpeed_eq]
    have h1s : Vec3.length (t1 - p.position) < sd := lt_trans h12 h2s
    rw [if_pos h1s, if_pos h2s]
    have hd10 : 0 ≤ Vec3.length (t1 - p.position) := Vec3.length_nonneg _
    have hd2pos : 0 < Vec3.length (t2 - p.position) := lt_of_le_of_lt hd10 h12
    have hL2 : Vec3.length (Vec3.normalize (t2 - p.position)) = 1 :=
      Vec3.length_normalize_of_ne_zero (ne_of_gt hd2pos)
    have hL10 : 0 ≤ Vec3.length (Vec3.normalize (t1 - p.position)) :=
      Vec3.length_nonneg _
    have hL11 : Vec3.length (Vec3.normalize (t1 - p.position)) ≤ 1 :=
      Vec3.length_normalize_le_one _
    have hX10 : 0 ≤ Vec3.length (t1 - p.position) / sd * p.skills.maxSpeed := by
      positivity
    have hX20 : 0 ≤ Vec3.length (t2 - p.position) / sd * p.skills.maxSpeed := by
      positivity
    rw [abs_of_nonneg hX10, abs_of_nonneg hX20, hL2, mul_one]
    have key : Vec3.length (t1 - p.position) / sd * p.skills.maxSpeed
        < Vec3.length (t2 - p.position) / sd * p.skills.maxSpeed := by
      apply mul_lt_mul_of_pos_right _ hm
      rw [div_eq_mul_inv, div_eq_mul_inv]
      exact mul_lt_mul_of_pos_right h12 (inv_pos.mpr hsd)
    calc Vec3.length (t1 - p.position) / sd * p.skills.maxSpeed
          * Vec3.length (Vec3.normalize (t1 - p.position))
        ≤ Vec3.length (t1 - p.position) / sd * p.skills.maxSpeed :=
          mul_le_of_le_one_right hX10 hL11
      _ < Vec3.length (t2 - p.position) / sd * p.skills.maxSpeed := key

/-- Claim C3 witness: player `pW` (max speed 2), slowing distance 10,
targets at distances 1 and 2 on the x-axis. -/
theorem arrive_speed_witness :
    arriveDesiredSpeed ⟨30, 0, 0⟩ 10 pW ≤ pW.skills.maxSpeed ∧
      arriveDesiredSpeed ⟨1, 0, 0⟩ 10 pW < arriveDesiredSpeed ⟨2, 0, 0⟩ 10 pW :=
  arrive_speed_bounded_and_monotone pW ⟨30, 0, 0⟩ ⟨1, 0, 0⟩ ⟨2, 0, 0⟩ 10
    (by norm_num) (by show (0:ℝ) < 2; norm_num)
    (by
      show Vec3.distanceTo ⟨0, 0, 0⟩ ⟨1, 0, 0⟩ < Vec3.distanceTo ⟨0, 0, 0⟩ ⟨2, 0, 0⟩
      rw [Vec3.dist_mk_x, Vec3.dist_mk_x]
      norm_num)
    (by
      show Vec3.distanceTo ⟨0, 0, 0⟩ ⟨2, 0, 0⟩ < 10
      rw [Vec3.dist_mk_x]
      norm_num)

/-- Claim C7: among exactly two candidates that are both open and in the
passing lane, `find_best_pass_option` returns the id of the one with the
strictly higher scoring chance. -/
theorem find_best_pass_selects_higher_chance (ctx : StateProcessingContext)
    (A B : MatchPlayer) (hteam : ctx.teammates = [A, B])
    (hAopen : ForwardHeadingUpPlayState.isOpenForPass ctx A)
    (hAlane : ForwardHeadingUpPlayState.inPassingLane ctx A)
    (hBopen : ForwardHeadingUpPlayState.isOpenForPass ctx B)
    (hBlane : ForwardHeadingUpPlayState.inPassingLane ctx B)
    (hchance : ForwardHeadingUpPlayState.scoringChance ctx B
      < ForwardHeadingUpPlayState.scoringChance ctx A) :
    ForwardHeadingUpPlayState.findBestPassOption ctx = some A.id := by
  unfold ForwardHeadingUpPlayState.findBestPassOption
  rw [hteam]
  have hA : decide (ForwardHeadingUpPlayState.isOpenForPass ctx A ∧
      ForwardHeadingUpPlayState.inPassingLane ctx A) = true :=
    decide_eq_true ⟨hAopen, hAlane⟩
  have hB : decide (ForwardHeadingUpPlayState.isOpenForPass ctx B ∧
      ForwardHeadingUpPlayState.inPassingLane ctx B) = true :=
    decide_eq_true ⟨hBopen, hBlane⟩
  have hfilter : List.filter
      (fun t => decide (ForwardHeadingUpPlayState.isOpenForPass ctx t ∧
        ForwardHeadingUpPlayState.inPassingLane ctx t)) [A, B] = [A, B] := by
    apply List.filter_eq_self.mpr
    intro t ht
    rcases List.mem_cons.mp ht with h | h
    · subst h; exact hA
    · rcases List.mem_cons.mp h with h2 | h2
      · subst h2; exact hB
      · exact absurd h2 (List.not_mem_nil t)
  rw [hfilter]
  have hcmp : ForwardHeadingUpPlayState.compareChance ctx A B = .gt := by
    unfold ForwardHeadingUpPlayState.compareChance
    rw [if_neg (lt_asymm hchance), if_pos hchance]
  have hmax : ForwardHeadingUpPlayState.maxByLast
      (ForwardHeadingUpPlayState.compareChance ctx) [A, B]
        = some (if ForwardHeadingUpPlayState.compareChance ctx A B = .gt
          then A else B) := rfl
  rw [hmax, if_pos hcmp]
  rfl

/-- Teammate fixture at `(5,0,0)`, same team as `pW`, id 2. -/
def tmW : MatchPlayer := ⟨2, 1, some .left, ⟨5, 0, 0⟩, ⟨0, 0, 0⟩, false, skW⟩

/-- Opponent fixture at `(1,0,0)`, the other team, id 9. -/
def oppW : MatchPlayer := ⟨9, 2, some .right, ⟨1, 0, 0⟩, ⟨0, 0, 0⟩, false, skW⟩

/-- Goal positions fixture: goals at `(0,0,0)` and `(150,0,0)`. -/
def goalsW : GoalPositions := ⟨⟨0, 0, 0⟩, ⟨150, 0, 0⟩⟩

/-- Context fixture for claim C2: `pW` holds the ball with opponent `oppW`
one unit away, inside the pressure distance 5. -/
def ctxC2 : StateProcessingContext :=
  ⟨pW, ⟨[oppW], [oppW]⟩, ⟨2, 0, 0⟩, goalsW, 150, 5, ⟨0, 0, 0⟩⟩

/-- Context fixture for claim C8: `pW` holds the ball, no other players. -/
def ctxC8 : StateProcessingContext :=
  ⟨pW, ⟨[], []⟩, ⟨2, 0, 0⟩, goalsW, 150, 5, ⟨0, 0, 0⟩⟩

/-- Context fixture for claim C9: teammate `tmW` is enumerable (supports,
is open, in the lane) but absent from the id index. -/
def ctxC9 : StateProcessingContext :=
  ⟨pW, ⟨[tmW], []⟩, ⟨2, 0, 0⟩, goalsW, 150, 5, ⟨0, 0, 0⟩⟩

/-- Context fixture for claim C1: like `ctxC9` but with `tmW` present in
the id index, so the pass branch completes. -/
def ctxC1 : StateProcessingContext :=
  ⟨pW, ⟨[tmW], [tmW]⟩, ⟨2, 0, 0⟩, goalsW, 150, 5, ⟨0, 0, 0⟩⟩

/-- Claim C2 witness: at `ctxC2` the player is under pressure and
`try_fast` transitions to Passing. -/
theorem heading_up_play_pressure_witness :
    ForwardHeadingUpPlayState.tryFast ctxC2
      = some (StateChangeResult.withForwardState .passing) :=
  heading_up_play_pressure_to_passing ctxC2 rfl
    ⟨oppW, by
        show oppW ∈ [oppW]
        exact List.mem_singleton_self oppW,
      by
        show Vec3.distanceTo ⟨0, 0, 0⟩ ⟨1, 0, 0⟩ < 5
        rw [Vec3.dist_mk_x]
        norm_num⟩

/-- Claim C8 witness: at `ctxC8` there is no pressure and no support, and
`try_fast` transitions to Dribbling. -/
theorem heading_up_play_no_support_witness :
    ForwardHeadingUpPlayState.tryFast ctxC8
      = some (StateChangeResult.withForwardState .dribbling) :=
  heading_up_play_no_support_to_dribbling ctxC8 rfl
    (by
      rintro ⟨o, ho, _⟩
      rw [show ctxC8.opponents = [] from rfl] at ho
      exact absurd ho (List.not_mem_nil o))
    (by
      rintro ⟨t, ht, _⟩
      rw [show ctxC8.teammates = [] from rfl] at ht
      exact absurd ht (List.not_mem_nil t))

/-- Claim C4 witness: a concrete Wander evaluation, twice on identical
inputs and seed, gives identical outputs. -/
theorem calculate_deterministic_witness :
    (SteeringBehavior.wander ⟨1, 0, 0⟩ 1 1 1 0).calculate pW 3
      = (SteeringBehavior.wander ⟨1, 0, 0⟩ 1 1 1 0).calculate pW 3 :=
  calculate_deterministic (.wander ⟨1, 0, 0⟩ 1 1 1 0) (.wander ⟨1, 0, 0⟩ 1 1 1 0)
    pW pW 3 3 rfl rfl rfl

theorem findBest_singleton (ctx : StateProcessingContext) (T : MatchPlayer)
    (hteam : ctx.teammates = [T])
    (hopen : ForwardHeadingUpPlayState.isOpenForPass ctx T)
    (hlane : ForwardHeadingUpPlayState.inPassingLane ctx T) :
    ForwardHeadingUpPlayState.findBestPassOption ctx = some T.id := by
  unfold ForwardHeadingUpPlayState.findBestPassOption
  rw [hteam]
  have hfilter : List.filter
      (fun t => decide (ForwardHeadingUpPlayState.isOpenForPass ctx t ∧
        ForwardHeadingUpPlayState.inPassingLane ctx t)) [T] = [T] := by
    apply List.filter_eq_self.mpr
    intro t ht
    rcases List.mem_cons.mp ht with h | h
    · subst h; exact decide_eq_true ⟨hopen, hlane⟩
    · exact absurd h (List.not_mem_nil t)
  rw [hfilter]
  rfl

theorem open_tmW_C9 : ForwardHeadingUpPlayState.isOpenForPass ctxC9 tmW := by
  constructor
  · show ¬ (Vec3.distanceTo ⟨0, 0, 0⟩ ⟨5, 0, 0⟩ > 20)
    rw [Vec3.dist_mk_x]
    norm_num
  · intro o ho
    rw [show ctxC9.opponents = [] from rfl] at ho
    exact absurd ho (List.not_mem_nil o)

theorem lane_tmW_C9 : ForwardHeadingUpPlayState.inPassingLane ctxC9 tmW := by
  show Vec3.dot (Vec3.normalize ((⟨2, 0, 0⟩ : Vec3) - ⟨0, 0, 0⟩))
      (Vec3.normalize ((⟨5, 0, 0⟩ : Vec3) - ⟨0, 0, 0⟩)) > 0.8
  have e2 : ((⟨2, 0, 0⟩ : Vec3) - ⟨0, 0, 0⟩) = (⟨2, 0, 0⟩ : Vec3) := by
    rw [Vec3.ext_iff3]; norm_num
  have e5 : ((⟨5, 0, 0⟩ : Vec3) - ⟨0, 0, 0⟩) = (⟨5, 0, 0⟩ : Vec3) := by
    rw [Vec3.ext_iff3]; norm_num
  rw [e2, e5, Vec3.normalize_mk_x_pos (by norm_num : (0:ℝ) < 2),
    Vec3.normalize_mk_x_pos (by norm_num : (0:ℝ) < 5)]
  show (1:ℝ) * 1 + 0 * 0 + 0 * 0 > 0.8
  norm_num

/-- Claim C9: when the best pass candidate's id is absent from the
snapshot's player index, `try_fast` absorbs the miss as `None` (and
`process_slow` is `None`), so the tick yields no transition. -/
theorem heading_up_play_lookup_miss_no_transition (ctx : StateProcessingContext)
    (tid : Nat) (hball : ctx.player.hasBall = true)
    (hnp : ¬ ctx.isUnderPressure)
    (hsup : ForwardHeadingUpPlayState.hasSupport ctx)
    (hfind : ForwardHeadingUpPlayState.findBestPassOption ctx = some tid)
    (hmiss : ctx.players.get tid = none) :
    ForwardHeadingUpPlayState.tryFast ctx = none ∧
      ForwardHeadingUpPlayState.processSlow ctx = none := by
  refine ⟨?_, rfl⟩
  unfold ForwardHeadingUpPlayState.tryFast
  rw [if_neg (by simp [hball]), if_neg hnp, if_neg (not_not_intro hsup)]
  simp only [hfind, hmiss]

/-- Claim C9 witness: at `ctxC9` the candidate `tmW` (id 2) wins the pass
search but is missing from the index, and the evaluation yields no
transition. -/
theorem heading_up_play_lookup_miss_witness :
    ForwardHeadingUpPlayState.tryFast ctxC9 = none ∧
      ForwardHeadingUpPlayState.processSlow ctxC9 = none :=
  heading_up_play_lookup_miss_no_transition ctxC9 2 rfl
    (by
      rintro ⟨o, ho, _⟩
      rw [show ctxC9.opponents = [] from rfl] at ho
      exact absurd ho (List.not_mem_nil o))
    ⟨tmW, by
        show tmW ∈ [tmW]
        exact List.mem_singleton_self tmW,
      by
        show Vec3.distanceTo ⟨0, 0, 0⟩ ⟨5, 0, 0⟩ < 10
        rw [Vec3.dist_mk_x]
        norm_num⟩
    (findBest_singleton ctxC9 tmW rfl open_tmW_C9 lane_tmW_C9)
    rfl

theorem open_tmW_C1 : ForwardHeadingUpPlayState.isOpenForPass ctxC1 tmW := by
  constructor
  · show ¬ (Vec3.distanceTo ⟨0, 0, 0⟩ ⟨5, 0, 0⟩ > 20)
    rw [Vec3.dist_mk_x]
    norm_num
  · intro o ho
    rw [show ctxC1.opponents = [] from rfl] at ho
    exact absurd ho (List.not_mem_nil o)

theorem lane_tmW_C1 : ForwardHeadingUpPlayState.inPassingLane ctxC1 tmW := by
  show Vec3.dot (Vec3.normalize ((⟨2, 0, 0⟩ : Vec3) - ⟨0, 0, 0⟩))
      (Vec3.normalize ((⟨5, 0, 0⟩ : Vec3) - ⟨0, 0, 0⟩)) > 0.8
  have e2 : ((⟨2, 0, 0⟩ : Vec3) - ⟨0, 0, 0⟩) = (⟨2, 0, 0⟩ : Vec3) := by
    rw [Vec3.ext_iff3]; norm_num
  have e5 : ((⟨5, 0, 0⟩ : Vec3) - ⟨0, 0, 0⟩) = (⟨5, 0, 0⟩ : Vec3) := by
    rw [Vec3.ext_iff3]; norm_num
  rw [e2, e5, Vec3.normalize_mk_x_pos (by norm_num : (0:ℝ) < 2),
    Vec3.normalize_mk_x_pos (by norm_num : (0:ℝ) < 5)]
  show (1:ℝ) * 1 + 0 * 0 + 0 * 0 > 0.8
  norm_num

/-- Claim C1 (code bug witness): at `ctxC1` all of the claim's conditions
hold — the player has the ball, is not under pressure, has support, and the
pass search returns id 2, which is present in the index — yet `try_fast`
returns a result whose event list is empty: the `RequestPass` event is
added to a local `result` that the source then discards by returning a
fresh `with_forward_state(Running)` value. -/
theorem heading_up_play_pass_event_dropped :
    ForwardHeadingUpPlayState.tryFast ctxC1
      = some ⟨none, some ForwardState.running, []⟩ := by
  have hball : ctxC1.player.hasBall = true := rfl
  have hnp : ¬ ctxC1.isUnderPressure := by
    rintro ⟨o, ho, _⟩
    rw [show ctxC1.opponents = [] from rfl] at ho
    exact absurd ho (List.not_mem_nil o)
  have hsup : ForwardHeadingUpPlayState.hasSupport ctxC1 := by
    refine ⟨tmW, ?_, ?_⟩
    · show tmW ∈ [tmW]
      exact List.mem_singleton_self tmW
    · show Vec3.distanceTo ⟨0, 0, 0⟩ ⟨5, 0, 0⟩ < 10
      rw [Vec3.dist_mk_x]
      norm_num
  unfold ForwardHeadingUpPlayState.tryFast
  rw [if_neg (by simp [hball]), if_neg hnp, if_neg (not_not_intro hsup)]
  have hget : ctxC1.players.get tmW.id = some tmW := rfl
  simp only [findBest_singleton ctxC1 tmW rfl open_tmW_C1 lane_tmW_C1, hget]
  rfl

/-- Pass candidate fixture A for claim C7: id 2, closer to the goal. -/
def tmA : MatchPlayer := ⟨2, 1, some .left, ⟨6, 0, 0⟩, ⟨0, 0, 0⟩, false, skW⟩

/-- Pass candidate fixture B for claim C7: id 3, farther from the goal. -/
def tmB : MatchPlayer := ⟨3, 1, some .left, ⟨3, 0, 0⟩, ⟨0, 0, 0⟩, false, skW⟩

/-- Context fixture for claim C7: two open, aligned candidates. -/
def ctxC7 : StateProcessingContext :=
  ⟨pW, ⟨[tmA, tmB], [tmA, tmB]⟩, ⟨2, 0, 0⟩, goalsW, 150, 5, ⟨0, 0, 0⟩⟩

/-- Claim C7 witness: at `ctxC7`, candidate `tmA` (scoring chance
`1 - 144/150`) beats `tmB` (scoring chance `1 - 147/150`) and is selected. -/
theorem find_best_pass_witness :
    ForwardHeadingUpPlayState.findBestPassOption ctxC7 = some tmA.id :=
  find_best_pass_selects_higher_chance ctxC7 tmA tmB rfl
    (⟨by
        show ¬ (Vec3.distanceTo ⟨0, 0, 0⟩ ⟨6, 0, 0⟩ > 20)
        rw [Vec3.dist_mk_x]
        norm_num,
      by
        intro o ho
        rw [show ctxC7.opponents = [] from rfl] at ho
        exact absurd ho (List.not_mem_nil o)⟩)
    (by
      show Vec3.dot (Vec3.normalize ((⟨2, 0, 0⟩ : Vec3) - ⟨0, 0, 0⟩))
          (Vec3.normalize ((⟨6, 0, 0⟩ : Vec3) - ⟨0, 0, 0⟩)) > 0.8
      have e2 : ((⟨2, 0, 0⟩ : Vec3) - ⟨0, 0, 0⟩) = (⟨2, 0, 0⟩ : Vec3) := by
        rw [Vec3.ext_iff3]; norm_num
      have e6 : ((⟨6, 0, 0⟩ : Vec3) - ⟨0, 0, 0⟩) = (⟨6, 0, 0⟩ : Vec3) := by
        rw [Vec3.ext_iff3]; norm_num
      rw [e2, e6, Vec3.normalize_mk_x_pos (by norm_num : (0:ℝ) < 2),
        Vec3.normalize_mk_x_pos (by norm_num : (0:ℝ) < 6)]
      show (1:ℝ) * 1 + 0 * 0 + 0 * 0 > 0.8
      norm_num)
    (⟨by
        show ¬ (Vec3.distanceTo ⟨0, 0, 0⟩ ⟨3, 0, 0⟩ > 20)
        rw [Vec3.dist_mk_x]
        norm_num,
      by
        intro o ho
        rw [show ctxC7.opponents = [] from rfl] at ho
        exact absurd ho (List.not_mem_nil o)⟩)
    (by
      show Vec3.dot (Vec3.normalize ((⟨2, 0, 0⟩ : Vec3) - ⟨0, 0, 0⟩))
          (Vec3.normalize ((⟨3, 0, 0⟩ : Vec3) - ⟨0, 0, 0⟩)) > 0.8
      have e2 : ((⟨2, 0, 0⟩ : Vec3) - ⟨0, 0, 0⟩) = (⟨2, 0, 0⟩ : Vec3) := by
        rw [Vec3.ext_iff3]; norm_num
      have e3 : ((⟨3, 0, 0⟩ : Vec3) - ⟨0, 0, 0⟩) = (⟨3, 0, 0⟩ : Vec3) := by
        rw [Vec3.ext_iff3]; norm_num
      rw [e2, e3, Vec3.normalize_mk_x_pos (by norm_num : (0:ℝ) < 2),
        Vec3.normalize_mk_x_pos (by norm_num : (0:ℝ) < 3)]
      show (1:ℝ) * 1 + 0 * 0 + 0 * 0 > 0.8
      norm_num)
    (by
      show 1 - Vec3.distanceTo ⟨3, 0, 0⟩ ⟨150, 0, 0⟩ / 150
          < 1 - Vec3.distanceTo ⟨6, 0, 0⟩ ⟨150, 0, 0⟩ / 150
      rw [Vec3.dist_mk_x, Vec3.dist_mk_x]
      norm_num)
